import Mathlib

/-!
Verification development for the HUM backend repository (`server.js`).

The repository consists of an Express webhook server (a reward endpoint
and an AdGem postback endpoint) and a vendored SPL-token
amount-conversion module.  The conversion module's arithmetic is
JavaScript `number` (IEEE double) arithmetic; it is embedded here over
`ℚ` and `ℝ` (exact arithmetic), which is the idealized reading used by
the specification, except where a property is specifically about the
precision of the `Number(amount)` conversion of a bigint, which is an
exact integer computation and is modelled exactly (`roundToDouble`
below).
-/

namespace HumBackend

/-- Model of JavaScript `Math.trunc` on an exact rational: rounds toward
zero (floor for non-negative values, ceiling for negative values). -/
def jsTruncQ (x : ℚ) : ℤ :=
  if 0 ≤ x then ⌊x⌋ else ⌈x⌉

/-- Model of JavaScript `Math.trunc` on a real number (used where the
truncated quantity involves `Math.exp`): rounds toward zero. -/
noncomputable def jsTrunc (x : ℝ) : ℤ :=
  if 0 ≤ x then ⌊x⌋ else ⌈x⌉

/-- Left-pad a string with the character `0` up to length `d`.  Helper
for producing the fractional digits of a decimal rendering. -/
def leftPadZeros (d : ℕ) (s : String) : String :=
  String.mk (List.replicate (d - s.length) '0') ++ s

/-- Drop trailing `0` characters from a string of fractional digits. -/
def stripTrailingZeros (s : String) : String :=
  String.mk ((s.toList.reverse.dropWhile (fun c => c == '0')).reverse)

/-- Render the rational number `n / 10 ^ d` the way JavaScript
`Number.prototype.toString` renders the corresponding double over the
(non-exponential) range exercised by the conversion module: optional
sign, integer part, and, when non-zero, a fractional part with trailing
zeros removed. -/
def decimalRender (n : ℤ) (d : ℕ) : String :=
  let m : ℕ := n.natAbs
  let ip : ℕ := m / 10 ^ d
  let fp : ℕ := m % 10 ^ d
  let sign : String := if n < 0 then "-" else ""
  if fp = 0 then sign ++ toString ip
  else sign ++ toString ip ++ "." ++ stripTrailingZeros (leftPadZeros d (toString fp))

/-- The constant `ONE_IN_BASIS_POINTS = 10000` from server.js. -/
noncomputable def ONE_IN_BASIS_POINTS : ℝ := 10000

/-- The constant `SECONDS_PER_YEAR = 60 * 60 * 24 * 365.24` from server.js. -/
noncomputable def SECONDS_PER_YEAR : ℝ := 60 * 60 * 24 * 365.24

/-- Model of `calculateExponentForTimesAndRate(t1, t2, r)` from
server.js: the continuous-compounding growth factor
`exp(r * (t2 - t1) / (SECONDS_PER_YEAR * ONE_IN_BASIS_POINTS))`. -/
noncomputable def calculateExponentForTimesAndRate (t1 t2 r : ℝ) : ℝ :=
  Real.exp (r * (t2 - t1) / (SECONDS_PER_YEAR * ONE_IN_BASIS_POINTS))

/-- Model of `getDecimalFactor(decimals)` from server.js: `10 ^ decimals`. -/
def getDecimalFactor (decimals : ℕ) : ℚ :=
  10 ^ decimals

/-- Model of `uiAmountToAtomicUiAmount(uiAmount, decimals)` from
server.js.  The JS function applies `parseFloat` to the decimal string
`uiAmount` and multiplies by the decimal factor; the parsed numeric
value is taken here directly as a rational. -/
def uiAmountToAtomicUiAmount (uiAmount : ℚ) (decimals : ℕ) : ℚ :=
  uiAmount * getDecimalFactor decimals

/-- Numeric value returned (before the final `toString` rendering) by
`amountToUiAmountForInterestBearingMintWithoutSimulation` in server.js:
the raw amount is scaled by the product of the pre-update and
post-update interest exponents, truncated, and divided by the decimal
factor. -/
noncomputable def amountToUiAmountForInterestBearingMintWithoutSimulation
    (amount : ℤ) (decimals : ℕ)
    (currentTimestamp lastUpdateTimestamp initializationTimestamp
      preUpdateAverageRate currentRate : ℝ) : ℝ :=
  let preUpdateExp := calculateExponentForTimesAndRate
    initializationTimestamp lastUpdateTimestamp preUpdateAverageRate
  let postUpdateExp := calculateExponentForTimesAndRate
    lastUpdateTimestamp currentTimestamp currentRate
  let totalScale := preUpdateExp * postUpdateExp
  let scaledAmount := (amount : ℝ) * totalScale
  (jsTrunc scaledAmount : ℝ) / (getDecimalFactor decimals : ℝ)

/-- Numeric value computed by
`amountToUiAmountForScaledUiAmountMintWithoutSimulation` in server.js
before the final `toString`:
`Math.trunc(Number(amount) * multiplier) / 10 ^ decimals`. -/
def scaledUiAmountValue (amount : ℤ) (decimals : ℕ) (multiplier : ℚ) : ℚ :=
  (jsTruncQ ((amount : ℚ) * multiplier) : ℚ) / getDecimalFactor decimals

/-- Model of `amountToUiAmountForScaledUiAmountMintWithoutSimulation`
from server.js: scales the raw amount by the multiplier, truncates, and
renders the result divided by `10 ^ decimals` as a decimal string. -/
def amountToUiAmountForScaledUiAmountMintWithoutSimulation
    (amount : ℤ) (decimals : ℕ) (multiplier : ℚ) : String :=
  decimalRender (jsTruncQ ((amount : ℚ) * multiplier)) decimals

/-- Model of `uiAmountToAmountForInterestBearingMintWithoutSimulation`
from server.js: divides the atomic UI amount by the total interest
scale and truncates to an integer (JS `BigInt(Math.trunc(...))`). -/
noncomputable def uiAmountToAmountForInterestBearingMintWithoutSimulation
    (uiAmount : ℚ) (decimals : ℕ)
    (currentTimestamp lastUpdateTimestamp initializationTimestamp
      preUpdateAverageRate currentRate : ℝ) : ℤ :=
  let uiAmountScaled := (uiAmountToAtomicUiAmount uiAmount decimals : ℝ)
  let preUpdateExp := calculateExponentForTimesAndRate
    initializationTimestamp lastUpdateTimestamp preUpdateAverageRate
  let postUpdateExp := calculateExponentForTimesAndRate
    lastUpdateTimestamp currentTimestamp currentRate
  let totalScale := preUpdateExp * postUpdateExp
  jsTrunc (uiAmountScaled / totalScale)

/-- Model of `uiAmountToAmountForScaledUiAmountMintWithoutSimulation`
from server.js: divides the atomic UI amount by the multiplier and
truncates to an integer (JS `BigInt(Math.trunc(...))`). -/
def uiAmountToAmountForScaledUiAmountMintWithoutSimulation
    (uiAmount : ℚ) (decimals : ℕ) (multiplier : ℚ) : ℤ :=
  jsTruncQ (uiAmountToAtomicUiAmount uiAmount decimals / multiplier)

/-- Numeric value of the plain-mint forward conversion (the
no-extension branch of `amountToUiAmountForMintWithoutSimulation` in
server.js): `Number(amount) / decimalFactor`, with no truncation. -/
def plainUiAmountValue (amount : ℤ) (decimals : ℕ) : ℚ :=
  (amount : ℚ) / getDecimalFactor decimals

/-- Owning program of a fetched account.  `tokenProgram` and
`token2022` stand for the two recognized token-program public keys
(`TOKEN_PROGRAM_ID` / `TOKEN_2022_PROGRAM_ID`); `other` stands for any
other owner.  Public-key equality is abstracted to decidable equality
on this type. -/
inductive TokenProgramId where
  | tokenProgram
  | token2022
  | other (id : ℕ)
deriving DecidableEq

/-- The part of a fetched mint account consulted by the dispatch
functions before decoding: its owning program. -/
structure AccountInfo where
  owner : TokenProgramId
deriving DecidableEq

/-- Decoded interest-bearing extension configuration
(`getInterestBearingMintConfigState`).  Timestamps are in seconds and
rates in basis points; all fields are JS numbers after the `Number(...)`
conversions applied at the call sites in server.js. -/
structure InterestBearingConfig where
  initializationTimestamp : ℚ
  lastUpdateTimestamp : ℚ
  preUpdateAverageRate : ℚ
  currentRate : ℚ

/-- Decoded scaled-UI-amount extension configuration
(`getScaledUiAmountConfig`): a scheduled multiplier change. -/
structure ScaledUiAmountConfig where
  multiplier : ℚ
  newMultiplier : ℚ
  newMultiplierEffectiveTimestamp : ℚ

/-- Result of `unpackMint` together with the two extension extractors:
the mint's decimals and the optional extension configurations. -/
structure MintInfo where
  decimals : ℕ
  interestBearingMintConfigState : Option InterestBearingConfig
  scaledUiAmountConfig : Option ScaledUiAmountConfig

/-- The external-ledger responses a dispatch call consumes:
`getAccountInfo(mint)` (absent when the account does not exist), the
decoded mint state, and the sysvar-clock timestamp (absent when the
clock fetch fails or is unparsable). -/
structure LedgerEnv where
  accountInfo : Option AccountInfo
  mintInfo : MintInfo
  clock : Option ℚ

/-- Errors thrown by the dispatch functions in server.js:
`invalidProgramId` for `throw new Error('Invalid program ID')` and
`clockUnavailable` for the failures of `getSysvarClockTimestamp`. -/
inductive ConvError where
  | invalidProgramId
  | clockUnavailable
deriving DecidableEq

/-- Multiplier selection performed by both dispatch functions in
server.js: the new multiplier applies when
`timestamp >= newMultiplierEffectiveTimestamp`, the old one before. -/
def selectScaledMultiplier (cfg : ScaledUiAmountConfig) (timestamp : ℚ) : ℚ :=
  if cfg.newMultiplierEffectiveTimestamp ≤ timestamp then cfg.newMultiplier
  else cfg.multiplier

/-- Model of `amountToUiAmountForMintWithoutSimulation` from server.js,
with the ledger responses passed explicitly.  Returns the numeric value
of the produced UI-amount string, or the thrown error.  The owner check
precedes every use of the decoded mint state; the clock is consulted
only when an extension is present; the interest-bearing branch is tried
before the scaled branch. -/
noncomputable def amountToUiAmountForMintWithoutSimulation
    (env : LedgerEnv) (amount : ℤ) : Except ConvError ℝ :=
  match env.accountInfo with
  | none => .error .invalidProgramId
  | some accountInfo =>
    if accountInfo.owner ≠ .tokenProgram ∧ accountInfo.owner ≠ .token2022 then
      .error .invalidProgramId
    else
      match env.mintInfo.interestBearingMintConfigState,
            env.mintInfo.scaledUiAmountConfig with
      | none, none =>
        .ok ((plainUiAmountValue amount env.mintInfo.decimals : ℝ))
      | some c, _ =>
        match env.clock with
        | none => .error .clockUnavailable
        | some timestamp =>
          .ok (amountToUiAmountForInterestBearingMintWithoutSimulation
            amount env.mintInfo.decimals (timestamp : ℝ)
            (c.lastUpdateTimestamp : ℝ) (c.initializationTimestamp : ℝ)
            (c.preUpdateAverageRate : ℝ) (c.currentRate : ℝ))
      | none, some s =>
        match env.clock with
        | none => .error .clockUnavailable
        | some timestamp =>
          .ok ((scaledUiAmountValue amount env.mintInfo.decimals
            (selectScaledMultiplier s timestamp) : ℝ))

/-- Model of `uiAmountToAmountForMintWithoutSimulation` from server.js,
with the ledger responses passed explicitly.  Returns the raw integer
amount, or the thrown error.  Branch structure mirrors the forward
dispatch. -/
noncomputable def uiAmountToAmountForMintWithoutSimulation
    (env : LedgerEnv) (uiAmount : ℚ) : Except ConvError ℤ :=
  match env.accountInfo with
  | none => .error .invalidProgramId
  | some accountInfo =>
    if accountInfo.owner ≠ .tokenProgram ∧ accountInfo.owner ≠ .token2022 then
      .error .invalidProgramId
    else
      match env.mintInfo.interestBearingMintConfigState,
            env.mintInfo.scaledUiAmountConfig with
      | none, none =>
        .ok (jsTruncQ (uiAmountToAtomicUiAmount uiAmount env.mintInfo.decimals))
      | some c, _ =>
        match env.clock with
        | none => .error .clockUnavailable
        | some timestamp =>
          .ok (uiAmountToAmountForInterestBearingMintWithoutSimulation
            uiAmount env.mintInfo.decimals (timestamp : ℝ)
            (c.lastUpdateTimestamp : ℝ) (c.initializationTimestamp : ℝ)
            (c.preUpdateAverageRate : ℝ) (c.currentRate : ℝ))
      | none, some s =>
        match env.clock with
        | none => .error .clockUnavailable
        | some timestamp =>
          .ok (uiAmountToAmountForScaledUiAmountMintWithoutSimulation
            uiAmount env.mintInfo.decimals (selectScaledMultiplier s timestamp))

/-- Return data of a simulated transaction: the raw bytes of the
decoded return-data buffer (`Buffer.from(returnData.data[0],
returnData.data[1])`). -/
structure SimReturnData where
  data : List ℕ

/-- The `value` of a `simulateTransaction` response as consumed by
`amountToUiAmount` in server.js: optional return data and the
simulation's own error value (which may be null). -/
structure SimValue (ε : Type) where
  returnData : Option SimReturnData
  err : Option ε

/-- Outcome of the simulation variant: either the UTF-8 decoded return
data, or the simulation's error value (possibly null) passed through. -/
inductive SimOutcome (ε : Type) where
  | decoded (s : String)
  | fallthrough (err : Option ε)

/-- Model of `amountToUiAmount` (the transaction-simulation variant)
from server.js: when return data is present its bytes are decoded as a
UTF-8 string and returned; otherwise the simulation's error value is
returned as-is.  `decodeUtf8` abstracts `Buffer.toString('utf-8')`.
The function is total: neither case throws. -/
def amountToUiAmount {ε : Type} (decodeUtf8 : List ℕ → String)
    (value : SimValue ε) : SimOutcome ε :=
  match value.returnData with
  | some rd => .decoded (decodeUtf8 rd.data)
  | none => .fallthrough value.err

/-- Round a natural number to the nearest multiple of `u`, ties to the
even multiple.  Helper for `roundToDouble`. -/
def rnEven (u x : ℕ) : ℕ :=
  let q := x / u
  let r := x % u
  if 2 * r < u then q * u
  else if u < 2 * r then (q + 1) * u
  else if q % 2 = 0 then q * u else (q + 1) * u

/-- Model of the JavaScript `Number(amount)` conversion of a
non-negative bigint to an IEEE double (as applied to the raw amount in
the three conversion functions of server.js): integers up to `2 ^ 53`
are exactly representable; larger integers are rounded to the nearest
representable double (nearest multiple of the unit in the last place,
ties to even).  Overflow to infinity (beyond `2 ^ 1024`) is outside the
range modelled here. -/
def roundToDouble (x : ℕ) : ℕ :=
  if x ≤ 2 ^ 53 then x
  else rnEven (2 ^ (Nat.log 2 x - 52)) x

/-- Numeric value of the plain-mint forward conversion with the
`Number(amount)` bigint-to-double conversion modelled exactly:
server.js computes `Number(amount) / decimalFactor`. -/
def plainUiAmountNumberValue (amount : ℕ) (decimals : ℕ) : ℚ :=
  (roundToDouble amount : ℚ) / getDecimalFactor decimals

/-- The constant `ADGEM_KEY` from server.js. -/
def ADGEM_KEY : String := "le9nnnl93cah313bbnec987a"

/-- JavaScript truthiness of an optional string: `undefined` and the
empty string are falsy, every other string is truthy. -/
def jsTruthyStr : Option String → Bool
  | none => false
  | some s => decide (s ≠ "")

/-- JavaScript `a || b` on optional strings: yields `a` when `a` is
truthy, otherwise `b`. -/
def jsOrStr (a b : Option String) : Option String :=
  if jsTruthyStr a then a else b

/-- An AdGem webhook request as consumed by the handler in server.js:
the `player_id` field of the JSON body, the reward amount after the
`Number(data.amount) || 0` coercion, the `secret` query parameter and
the `x-adgem-secret` header (each absent or a string). -/
structure AdgemRequest where
  player_id : Option String
  rewardAmount : ℚ
  querySecret : Option String
  headerSecret : Option String

/-- Observable outcome of the AdGem webhook handler: a 400 response, a
401 response, or the internal reward call with the forwarded wallet and
amount. -/
inductive AdgemResponse where
  | badRequest
  | unauthorized
  | rewardCall (wallet : String) (amount : ℚ)

/-- Model of the `/adgem-webhook` handler from server.js: requires a
truthy `player_id` (else 400); then, when the configured key, the
supplied secret and their disagreement are all (JS-)truthy, responds
401; otherwise forwards the reward call. -/
def adgemWebhook (req : AdgemRequest) : AdgemResponse :=
  let playerWallet := req.player_id
  let secret := jsOrStr req.querySecret req.headerSecret
  if jsTruthyStr playerWallet = false then .badRequest
  else if jsTruthyStr (some ADGEM_KEY) && jsTruthyStr secret
      && decide (secret ≠ some ADGEM_KEY) then .unauthorized
  else .rewardCall (playerWallet.getD "") req.rewardAmount

/-- The secret "supplied via query parameter or x-adgem-secret header",
read off the claim's words: the query parameter when present, otherwise
the header.  Used to state the claimed authorization property; compare
`jsOrStr`, which is what the code computes (first truthy, not first
present). -/
def claimSuppliedSecret (req : AdgemRequest) : Option String :=
  match req.querySecret with
  | some s => some s
  | none => req.headerSecret

/-- Forward interest-bearing conversion written exactly as the claimed
specification formula:
`truncate(amount * exponent(init, last, pre) * exponent(last, cur, cur)) / 10 ^ decimals`
with `exponent(t1, t2, rate) = exp(rate * (t2 - t1) / (SECONDS_PER_YEAR * 10000))`
and `SECONDS_PER_YEAR = 86400 * 365.24`. -/
noncomputable def specInterestBearingUiAmount
    (amount : ℤ) (decimals : ℕ)
    (currentTimestamp lastUpdateTimestamp initializationTimestamp
      preUpdateAverageRate currentRate : ℝ) : ℝ :=
  (jsTrunc ((amount : ℝ)
      * Real.exp (preUpdateAverageRate
          * (lastUpdateTimestamp - initializationTimestamp)
          / (86400 * 365.24 * 10000))
      * Real.exp (currentRate
          * (currentTimestamp - lastUpdateTimestamp)
          / (86400 * 365.24 * 10000))) : ℝ)
    / 10 ^ decimals

/-- Truncation of an integer value is the identity. -/
lemma jsTruncQ_intCast (n : ℤ) : jsTruncQ (n : ℚ) = n := by
  unfold jsTruncQ
  split
  · exact Int.floor_intCast n
  · exact Int.ceil_intCast n

/-- The interest-formula denominator is positive. -/
lemma seconds_per_year_bp_pos : 0 < SECONDS_PER_YEAR * ONE_IN_BASIS_POINTS := by
  unfold SECONDS_PER_YEAR ONE_IN_BASIS_POINTS
  norm_num

/-- C1: for every raw integer amount, decimals, current timestamp and
interest-bearing configuration, the interest-bearing forward conversion
equals
`truncate(amount * exponent(init, last, preRate) * exponent(last, cur, curRate)) / 10 ^ decimals`
with `exponent(t1, t2, rate) = exp(rate * (t2 - t1) / (86400 * 365.24 * 10000))`,
truncation being applied to the scaled amount before dividing by the
decimal factor. -/
theorem C1_interest_bearing_forward_formula
    (amount : ℤ) (decimals : ℕ)
    (currentTimestamp lastUpdateTimestamp initializationTimestamp
      preUpdateAverageRate currentRate : ℝ) :
    amountToUiAmountForInterestBearingMintWithoutSimulation amount decimals
        currentTimestamp lastUpdateTimestamp initializationTimestamp
        preUpdateAverageRate currentRate
      = specInterestBearingUiAmount amount decimals
        currentTimestamp lastUpdateTimestamp initializationTimestamp
        preUpdateAverageRate currentRate := by
  have hc : SECONDS_PER_YEAR * ONE_IN_BASIS_POINTS = 86400 * 365.24 * 10000 := by
    unfold SECONDS_PER_YEAR ONE_IN_BASIS_POINTS
    norm_num
  simp only [amountToUiAmountForInterestBearingMintWithoutSimulation,
    specInterestBearingUiAmount, calculateExponentForTimesAndRate,
    getDecimalFactor, hc]
  rw [← mul_assoc]
  congr 1
  push_cast
  ring

/-- C2: the scaled-mint forward conversion uses the old multiplier
strictly before the effective timestamp and the new multiplier at or
after it; in particular with multiplier 2, new multiplier 3, effective
timestamp 1000, amount 1000000 and 6 decimals the rendered result is
"2" at timestamp 999 and "3" at timestamp 1000. -/
theorem C2_scaled_multiplier_boundary :
    (∀ (cfg : ScaledUiAmountConfig) (ts : ℚ) (amount : ℤ) (d : ℕ),
      ts < cfg.newMultiplierEffectiveTimestamp →
      amountToUiAmountForScaledUiAmountMintWithoutSimulation amount d
          (selectScaledMultiplier cfg ts)
        = amountToUiAmountForScaledUiAmountMintWithoutSimulation amount d
          cfg.multiplier) ∧
    (∀ (cfg : ScaledUiAmountConfig) (ts : ℚ) (amount : ℤ) (d : ℕ),
      cfg.newMultiplierEffectiveTimestamp ≤ ts →
      amountToUiAmountForScaledUiAmountMintWithoutSimulation amount d
          (selectScaledMultiplier cfg ts)
        = amountToUiAmountForScaledUiAmountMintWithoutSimulation amount d
          cfg.newMultiplier) ∧
    amountToUiAmountForScaledUiAmountMintWithoutSimulation 1000000 6
        (selectScaledMultiplier ⟨2, 3, 1000⟩ 999) = "2" ∧
    amountToUiAmountForScaledUiAmountMintWithoutSimulation 1000000 6
        (selectScaledMultiplier ⟨2, 3, 1000⟩ 1000) = "3" := by
  have hsel999 : selectScaledMultiplier ⟨2, 3, 1000⟩ 999 = 2 := by
    unfold selectScaledMultiplier
    rw [if_neg (by norm_num)]
  have hsel1000 : selectScaledMultiplier ⟨2, 3, 1000⟩ 1000 = 3 := by
    unfold selectScaledMultiplier
    rw [if_pos (by norm_num)]
  refine ⟨?_, ?_, ?_, ?_⟩
  · intro cfg ts amount d h
    rw [selectScaledMultiplier, if_neg (not_le.mpr h)]
  · intro cfg ts amount d h
    rw [selectScaledMultiplier, if_pos h]
  · rw [hsel999]
    have h1 : jsTruncQ (((1000000 : ℤ) : ℚ) * 2) = 2000000 := by
      unfold jsTruncQ
      rw [if_pos (by norm_num)]
      norm_num
    unfold amountToUiAmountForScaledUiAmountMintWithoutSimulation
    rw [h1]
    decide
  · rw [hsel1000]
    have h1 : jsTruncQ (((1000000 : ℤ) : ℚ) * 3) = 3000000 := by
      unfold jsTruncQ
      rw [if_pos (by norm_num)]
      norm_num
    unfold amountToUiAmountForScaledUiAmountMintWithoutSimulation
    rw [h1]
    decide

/-- Witness for C2: the selection rules applied at the concrete
configuration (2, 3, effective 1000) at timestamps 500 and 2000. -/
theorem C2_scaled_multiplier_boundary_witness :
    amountToUiAmountForScaledUiAmountMintWithoutSimulation 10 1
        (selectScaledMultiplier ⟨2, 3, 1000⟩ 500)
      = amountToUiAmountForScaledUiAmountMintWithoutSimulation 10 1 2 ∧
    amountToUiAmountForScaledUiAmountMintWithoutSimulation 10 1
        (selectScaledMultiplier ⟨2, 3, 1000⟩ 2000)
      = amountToUiAmountForScaledUiAmountMintWithoutSimulation 10 1 3 :=
  ⟨C2_scaled_multiplier_boundary.1 ⟨2, 3, 1000⟩ 500 10 1 (by norm_num),
   C2_scaled_multiplier_boundary.2.1 ⟨2, 3, 1000⟩ 2000 10 1 (by norm_num)⟩

/-- C3: the interest accrual exponent computes
`exp(rate * (t2 - t1) / (SECONDS_PER_YEAR * 10000))` with
`SECONDS_PER_YEAR = 86400 * 365.24`; it is strictly increasing in the
timespan `t2 - t1` for a positive rate, strictly decreasing for a
negative rate, and equals 1 whenever `t1 = t2`. -/
theorem C3_exponent_properties :
    (∀ t1 t2 r : ℝ, calculateExponentForTimesAndRate t1 t2 r
      = Real.exp (r * (t2 - t1) / (86400 * 365.24 * 10000))) ∧
    (∀ r t1 t2 t1' t2' : ℝ, 0 < r → t2 - t1 < t2' - t1' →
      calculateExponentForTimesAndRate t1 t2 r
        < calculateExponentForTimesAndRate t1' t2' r) ∧
    (∀ r t1 t2 t1' t2' : ℝ, r < 0 → t2 - t1 < t2' - t1' →
      calculateExponentForTimesAndRate t1' t2' r
        < calculateExponentForTimesAndRate t1 t2 r) ∧
    (∀ t r : ℝ, calculateExponentForTimesAndRate t t r = 1) := by
  have hC := seconds_per_year_bp_pos
  refine ⟨?_, ?_, ?_, ?_⟩
  · intro t1 t2 r
    unfold calculateExponentForTimesAndRate
    congr 2
    unfold SECONDS_PER_YEAR ONE_IN_BASIS_POINTS
    norm_num
  · intro r t1 t2 t1' t2' hr h
    unfold calculateExponentForTimesAndRate
    exact Real.exp_lt_exp.mpr
      ((div_lt_div_iff_of_pos_right hC).mpr (mul_lt_mul_of_pos_left h hr))
  · intro r t1 t2 t1' t2' hr h
    unfold calculateExponentForTimesAndRate
    exact Real.exp_lt_exp.mpr
      ((div_lt_div_iff_of_pos_right hC).mpr (mul_lt_mul_of_neg_left h hr))
  · intro t r
    unfold calculateExponentForTimesAndRate
    rw [sub_self, mul_zero, zero_div, Real.exp_zero]

/-- Witness for C3: a year-long span grows the factor at rate 1bp,
shrinks it at rate -1bp, and an empty span gives factor 1. -/
theorem C3_exponent_properties_witness :
    calculateExponentForTimesAndRate 0 1 1
      < calculateExponentForTimesAndRate 0 2 1 ∧
    calculateExponentForTimesAndRate 0 2 (-1)
      < calculateExponentForTimesAndRate 0 1 (-1) ∧
    calculateExponentForTimesAndRate 3 3 7 = 1 :=
  ⟨C3_exponent_properties.2.1 1 0 1 0 2 (by norm_num) (by norm_num),
   C3_exponent_properties.2.2.1 (-1) 0 1 0 2 (by norm_num) (by norm_num),
   C3_exponent_properties.2.2.2 3 7⟩

/-- C4 (amended): for every non-negative integer amount up to `2 ^ 53`
and decimals at most 18, converting to a plain UI amount — with the
`Number(amount)` bigint-to-double rounding of server.js modelled
exactly — and back (inverse truncation included) lands within one
atomic unit of the original amount. -/
theorem C4_plain_round_trip_within_2_pow_53 (a : ℕ) (d : ℕ)
    (ha : a ≤ 2 ^ 53) (hd : d ≤ 18) :
    (jsTruncQ (uiAmountToAtomicUiAmount (plainUiAmountNumberValue a d) d)
      - (a : ℤ)).natAbs ≤ 1 := by
  have h10 : getDecimalFactor d ≠ 0 := by
    unfold getDecimalFactor
    positivity
  have hval : uiAmountToAtomicUiAmount (plainUiAmountNumberValue a d) d
      = (((a : ℕ) : ℤ) : ℚ) := by
    unfold uiAmountToAtomicUiAmount plainUiAmountNumberValue roundToDouble
    rw [if_pos ha, div_mul_cancel₀ _ h10]
    push_cast
    ring
  rw [hval, jsTruncQ_intCast, sub_self]
  simp

/-- Witness for C4: the round trip at amount 5 with 2 decimals. -/
theorem C4_plain_round_trip_within_2_pow_53_witness :
    (jsTruncQ (uiAmountToAtomicUiAmount (plainUiAmountNumberValue 5 2) 2)
      - (5 : ℤ)).natAbs ≤ 1 :=
  C4_plain_round_trip_within_2_pow_53 5 2 (by norm_num) (by norm_num)

/-- Counterexample to C4 as stated: at raw amount `2 ^ 55 + 5` with 0
decimals, `Number(amount)` rounds to `2 ^ 55 + 8` (the unit in the
last place is 8 there), so the plain round trip comes back 3 atomic
units away from the original amount, violating the claimed 1-unit
truncation tolerance. -/
theorem C4_plain_round_trip_counterexample :
    1 < (jsTruncQ (uiAmountToAtomicUiAmount
        (plainUiAmountNumberValue (2 ^ 55 + 5) 0) 0)
      - ((2 : ℤ) ^ 55 + 5)).natAbs := by
  have hlog : Nat.log 2 (2 ^ 55 + 5) = 55 :=
    Nat.log_eq_of_pow_le_of_lt_pow (by norm_num) (by norm_num)
  have hrd : roundToDouble (2 ^ 55 + 5) = 2 ^ 55 + 8 := by
    unfold roundToDouble
    rw [if_neg (by norm_num), hlog]
    decide
  have hatomic : uiAmountToAtomicUiAmount
      (plainUiAmountNumberValue (2 ^ 55 + 5) 0) 0
      = (((2 : ℤ) ^ 55 + 8 : ℤ) : ℚ) := by
    unfold uiAmountToAtomicUiAmount plainUiAmountNumberValue getDecimalFactor
    rw [hrd]
    push_cast
    norm_num
  rw [hatomic, jsTruncQ_intCast,
    show ((2 : ℤ) ^ 55 + 8) - ((2 : ℤ) ^ 55 + 5) = 3 by ring]
  norm_num

/-- C5 (amended): the conversion functions apply `Number(amount)` to
the raw amount, which is exact only up to `2 ^ 53`: below that bound
the plain conversion with the double rounding modelled exactly agrees
with the exact-arithmetic conversion. -/
theorem C5_amount_precision_up_to_2_pow_53 (a : ℕ) (d : ℕ)
    (ha : a ≤ 2 ^ 53) :
    plainUiAmountNumberValue a d = plainUiAmountValue (a : ℤ) d := by
  unfold plainUiAmountNumberValue plainUiAmountValue roundToDouble
  rw [if_pos ha]
  push_cast
  rfl

/-- Witness for C5: exactness at amount 5 with 1 decimal. -/
theorem C5_amount_precision_witness :
    plainUiAmountNumberValue 5 1 = plainUiAmountValue 5 1 :=
  C5_amount_precision_up_to_2_pow_53 5 1 (by norm_num)

/-- Counterexample to C5 as stated: at raw amount `2 ^ 53 + 1` the
`Number(amount)` conversion rounds to `2 ^ 53`, so the plain conversion
(at 0 decimals) silently loses precision on the amount. -/
theorem C5_amount_precision_counterexample :
    plainUiAmountNumberValue (2 ^ 53 + 1) 0
      ≠ plainUiAmountValue ((2 : ℤ) ^ 53 + 1) 0 := by
  have hlog : Nat.log 2 (2 ^ 53 + 1) = 53 :=
    Nat.log_eq_of_pow_le_of_lt_pow (by norm_num) (by norm_num)
  have hrd : roundToDouble (2 ^ 53 + 1) = 2 ^ 53 := by
    unfold roundToDouble
    rw [if_neg (by norm_num), hlog]
    decide
  unfold plainUiAmountNumberValue plainUiAmountValue getDecimalFactor
  rw [hrd]
  push_cast
  norm_num

/-- C6: whenever the fetched account is missing or owned by a program
other than the two recognized token programs, both dispatch functions
fail with the invalid-program error, regardless of the decoded mint
content and of the clock. -/
theorem C6_dispatch_rejects_unrecognized_owner
    (env : LedgerEnv) (amount : ℤ) (uiAmount : ℚ)
    (h : ∀ info, env.accountInfo = some info →
      info.owner ≠ TokenProgramId.tokenProgram ∧
      info.owner ≠ TokenProgramId.token2022) :
    amountToUiAmountForMintWithoutSimulation env amount
      = .error .invalidProgramId ∧
    uiAmountToAmountForMintWithoutSimulation env uiAmount
      = .error .invalidProgramId := by
  constructor
  · unfold amountToUiAmountForMintWithoutSimulation
    cases hacc : env.accountInfo with
    | none => rfl
    | some info =>
        simp [(h info hacc).1, (h info hacc).2]
  · unfold uiAmountToAmountForMintWithoutSimulation
    cases hacc : env.accountInfo with
    | none => rfl
    | some info =>
        simp [(h info hacc).1, (h info hacc).2]

/-- Witness for C6: a mint account owned by an unrecognized program is
rejected by both dispatch functions. -/
theorem C6_dispatch_rejects_witness :
    amountToUiAmountForMintWithoutSimulation
        ⟨some ⟨.other 0⟩, ⟨6, none, none⟩, none⟩ 5
      = .error .invalidProgramId ∧
    uiAmountToAmountForMintWithoutSimulation
        ⟨some ⟨.other 0⟩, ⟨6, none, none⟩, none⟩ 1
      = .error .invalidProgramId :=
  C6_dispatch_rejects_unrecognized_owner
    ⟨some ⟨.other 0⟩, ⟨6, none, none⟩, none⟩ 5 1
    (fun info hinfo => by cases hinfo; exact ⟨by simp, by simp⟩)

/-- C7: for a recognized owner and no extensions, the forward dispatch
returns exactly `amount / 10 ^ decimals` with no truncation step; in
particular amount 1000000 with 6 decimals yields the value 1, rendered
as the string "1". -/
theorem C7_plain_forward :
    (∀ (env : LedgerEnv) (info : AccountInfo) (amount : ℤ),
      env.accountInfo = some info →
      (info.owner = TokenProgramId.tokenProgram ∨
        info.owner = TokenProgramId.token2022) →
      env.mintInfo.interestBearingMintConfigState = none →
      env.mintInfo.scaledUiAmountConfig = none →
      amountToUiAmountForMintWithoutSimulation env amount
        = .ok ((amount : ℝ) / 10 ^ env.mintInfo.decimals)) ∧
    amountToUiAmountForMintWithoutSimulation
        ⟨some ⟨.tokenProgram⟩, ⟨6, none, none⟩, none⟩ 1000000 = .ok 1 ∧
    decimalRender 1000000 6 = "1" := by
  have howner_ok : ∀ info : AccountInfo,
      (info.owner = TokenProgramId.tokenProgram ∨
        info.owner = TokenProgramId.token2022) →
      ¬(info.owner ≠ TokenProgramId.tokenProgram ∧
        info.owner ≠ TokenProgramId.token2022) := by
    intro info h
    rcases h with h | h <;> simp [h]
  refine ⟨?_, ?_, by decide⟩
  · intro env info amount hacc howner hib hsc
    unfold amountToUiAmountForMintWithoutSimulation
    simp only [hacc, hib, hsc]
    rw [if_neg (howner_ok info howner)]
    congr 1
    unfold plainUiAmountValue getDecimalFactor
    push_cast
    ring
  · unfold amountToUiAmountForMintWithoutSimulation
    simp only []
    rw [if_neg (by simp)]
    congr 1
    unfold plainUiAmountValue getDecimalFactor
    norm_num

/-- Witness for C7: the plain forward dispatch at a token-2022-owned
mint with 2 decimals and amount 300. -/
theorem C7_plain_forward_witness :
    amountToUiAmountForMintWithoutSimulation
        ⟨some ⟨.token2022⟩, ⟨2, none, none⟩, some 5⟩ 300
      = .ok ((300 : ℝ) / 10 ^ 2) :=
  C7_plain_forward.1 ⟨some ⟨.token2022⟩, ⟨2, none, none⟩, some 5⟩
    ⟨.token2022⟩ 300 rfl (Or.inr rfl) rfl rfl

/-- C8: the transaction-simulation variant returns the UTF-8 decoded
return data whenever return data is present, and the simulation's own
error value (possibly null) whenever it is absent; being a total
function of the simulation response, it throws in neither case. -/
theorem C8_simulation_variant (ε : Type) (decodeUtf8 : List ℕ → String)
    (v : SimValue ε) :
    (∀ rd, v.returnData = some rd →
      amountToUiAmount decodeUtf8 v = .decoded (decodeUtf8 rd.data)) ∧
    (v.returnData = none →
      amountToUiAmount decodeUtf8 v = .fallthrough v.err) := by
  constructor
  · intro rd hrd
    unfold amountToUiAmount
    rw [hrd]
  · intro hrd
    unfold amountToUiAmount
    rw [hrd]

/-- Witness for C8: decoding bytes of "1.5" when return data is
present, and passing through the error value 7 when it is absent. -/
theorem C8_simulation_variant_witness :
    amountToUiAmount (fun _ => "1.5")
        (⟨some ⟨[49, 46, 53]⟩, none⟩ : SimValue ℕ) = .decoded "1.5" ∧
    amountToUiAmount (fun _ => "1.5")
        (⟨none, some 7⟩ : SimValue ℕ) = .fallthrough (some 7) :=
  ⟨(C8_simulation_variant ℕ (fun _ => "1.5") ⟨some ⟨[49, 46, 53]⟩, none⟩).1
      ⟨[49, 46, 53]⟩ rfl,
   (C8_simulation_variant ℕ (fun _ => "1.5") ⟨none, some 7⟩).2 rfl⟩

/-- C9: when the decoded mint state carries both an interest-bearing
config and a scaled-UI-amount config, both dispatch functions take the
interest-bearing branch; the scaled multiplier does not appear in the
result. -/
theorem C9_interest_bearing_priority
    (env : LedgerEnv) (info : AccountInfo) (c : InterestBearingConfig)
    (s : ScaledUiAmountConfig) (ts : ℚ) (amount : ℤ) (uiAmount : ℚ)
    (hacc : env.accountInfo = some info)
    (howner : info.owner = TokenProgramId.tokenProgram ∨
      info.owner = TokenProgramId.token2022)
    (hib : env.mintInfo.interestBearingMintConfigState = some c)
    (hsc : env.mintInfo.scaledUiAmountConfig = some s)
    (hclock : env.clock = some ts) :
    amountToUiAmountForMintWithoutSimulation env amount
      = .ok (amountToUiAmountForInterestBearingMintWithoutSimulation amount
          env.mintInfo.decimals (ts : ℝ) (c.lastUpdateTimestamp : ℝ)
          (c.initializationTimestamp : ℝ) (c.preUpdateAverageRate : ℝ)
          (c.currentRate : ℝ)) ∧
    uiAmountToAmountForMintWithoutSimulation env uiAmount
      = .ok (uiAmountToAmountForInterestBearingMintWithoutSimulation uiAmount
          env.mintInfo.decimals (ts : ℝ) (c.lastUpdateTimestamp : ℝ)
          (c.initializationTimestamp : ℝ) (c.preUpdateAverageRate : ℝ)
          (c.currentRate : ℝ)) := by
  have hcond : ¬(info.owner ≠ TokenProgramId.tokenProgram ∧
      info.owner ≠ TokenProgramId.token2022) := by
    rcases howner with h | h <;> simp [h]
  constructor
  · unfold amountToUiAmountForMintWithoutSimulation
    simp only [hacc, hib, hsc, hclock]
    rw [if_neg hcond]
  · unfold uiAmountToAmountForMintWithoutSimulation
    simp only [hacc, hib, hsc, hclock]
    rw [if_neg hcond]

/-- Witness for C9: a mint carrying both configs dispatches to the
interest-bearing conversion in both directions. -/
theorem C9_interest_bearing_priority_witness :
    amountToUiAmountForMintWithoutSimulation
        ⟨some ⟨.tokenProgram⟩, ⟨6, some ⟨0, 0, 0, 0⟩, some ⟨2, 3, 1000⟩⟩,
          some 999⟩ 100
      = .ok (amountToUiAmountForInterestBearingMintWithoutSimulation 100 6
          ((999 : ℚ) : ℝ) ((0 : ℚ) : ℝ) ((0 : ℚ) : ℝ) ((0 : ℚ) : ℝ)
          ((0 : ℚ) : ℝ)) ∧
    uiAmountToAmountForMintWithoutSimulation
        ⟨some ⟨.tokenProgram⟩, ⟨6, some ⟨0, 0, 0, 0⟩, some ⟨2, 3, 1000⟩⟩,
          some 999⟩ 1
      = .ok (uiAmountToAmountForInterestBearingMintWithoutSimulation 1 6
          ((999 : ℚ) : ℝ) ((0 : ℚ) : ℝ) ((0 : ℚ) : ℝ) ((0 : ℚ) : ℝ)
          ((0 : ℚ) : ℝ)) :=
  C9_interest_bearing_priority
    ⟨some ⟨.tokenProgram⟩, ⟨6, some ⟨0, 0, 0, 0⟩, some ⟨2, 3, 1000⟩⟩, some 999⟩
    ⟨.tokenProgram⟩ ⟨0, 0, 0, 0⟩ ⟨2, 3, 1000⟩ 999 100 1
    rfl (Or.inl rfl) rfl rfl rfl

/-- C10 (amended): with a truthy `player_id`, the AdGem webhook handler
responds 401 exactly when the selected secret (query parameter if
truthy, else header) is a non-empty string different from the
configured key; a request with no secret at all is accepted and the
reward call proceeds. -/
theorem C10_secret_gate (req : AdgemRequest)
    (hplayer : jsTruthyStr req.player_id = true) :
    (adgemWebhook req = .unauthorized ↔
      ∃ s, jsOrStr req.querySecret req.headerSecret = some s ∧
        s ≠ "" ∧ s ≠ ADGEM_KEY) ∧
    (req.querySecret = none → req.headerSecret = none →
      adgemWebhook req = .rewardCall (req.player_id.getD "")
        req.rewardAmount) := by
  constructor
  · unfold adgemWebhook
    simp only [hplayer]
    cases hsec : jsOrStr req.querySecret req.headerSecret with
    | none => simp [jsTruthyStr]
    | some s =>
        by_cases hs : s = ""
        · subst hs
          simp [jsTruthyStr]
        · by_cases hk : s = ADGEM_KEY
          · subst hk
            simp [jsTruthyStr, hs]
          · simp [jsTruthyStr, hs, hk, ADGEM_KEY]
  · intro hq hh
    unfold adgemWebhook
    simp only [hplayer, hq, hh]
    simp [jsOrStr, jsTruthyStr]

/-- Witness for C10: a request with a truthy player id and a wrong
non-empty header secret is rejected with 401. -/
theorem C10_secret_gate_witness :
    adgemWebhook ⟨some "w", 2, none, some "badkey"⟩ = .unauthorized :=
  ((C10_secret_gate ⟨some "w", 2, none, some "badkey"⟩ (by decide)).1).mpr
    ⟨"badkey", rfl, by decide, by decide⟩

/-- Counterexample to C10 as stated: supplying the empty string as the
`secret` query parameter is supplying a secret that differs from the
configured key, yet the handler does not respond 401; the JS truthiness
check skips the gate for an empty secret, and the reward call proceeds. -/
theorem C10_secret_gate_counterexample :
    claimSuppliedSecret ⟨some "wallet1", 1, some "", none⟩ = some "" ∧
    ("" : String) ≠ ADGEM_KEY ∧
    adgemWebhook ⟨some "wallet1", 1, some "", none⟩
      = .rewardCall "wallet1" 1 ∧
    adgemWebhook ⟨some "wallet1", 1, some "", none⟩
      ≠ .unauthorized := by
  refine ⟨rfl, by decide, rfl, ?_⟩
  rw [show adgemWebhook ⟨some "wallet1", 1, some "", none⟩
    = .rewardCall "wallet1" 1 from rfl]
  simp

end HumBackend
